import Mathlib

/-!
Verification of the diet-chatbot query-analysis and profile-accumulation
pipeline (src/utils.py, src/nutrition_expert.py, src/chatbot.py,
config/nutrition_data.py), shallowly embedded in Lean 4.

Modelling conventions:
* Python floats are modelled as rationals (exact real arithmetic).
* Python strings are Lean `String`s; `str.lower()` is ASCII lowering
  (all inputs relevant to the claims are ASCII).
* The regular-expression searches of `extract_user_info` are embedded as
  left-to-right scanners.  For each of the concrete patterns the greedy
  deterministic scan is equivalent to the Python leftmost-match backtracking
  search, because after the numeric groups the patterns continue with
  alphabetic unit words, so shrinking a greedy `\d+` or `(?:\.\d+)?`
  group can never turn a failed unit match into a successful one.
* The generative-language-model collaborator is absent (the
  `_load_model` failure path of `DietChatbot`, which sets `model = None`);
  `random.choice` over the fixed fallback responses is modelled by an
  explicit index parameter threaded into `process_message`.
* Python exceptions that escape `process_message` (the reachable
  `IndexError` in `_ask_for_specific_info`) are modelled with `Except`.
-/

/-! ### String helpers (Python primitives) -/

/-- Python `\s` whitespace class (ASCII part). -/
def pySpace (c : Char) : Bool :=
  c = ' ' || c = '\t' || c = '\n' || c = '\r' || c = '\x0b' || c = '\x0c'

/-- Python `\w` word-character class (ASCII part), used for `\b` boundaries. -/
def isWordChar (c : Char) : Bool :=
  c.isAlphanum || c = '_'

/-- Python `str.lower()` (ASCII). -/
def lowerS (s : String) : String :=
  String.mk (s.data.map Char.toLower)

/-- Python `needle in hay` on character lists: does `needle` occur as a
contiguous sublist of the second argument? -/
def listContains (needle : List Char) : List Char → Bool
  | [] => needle.isEmpty
  | s@(_ :: tl) => needle.isPrefixOf s || listContains needle tl

/-- Python `needle in hay` substring test. -/
def containsSub (needle hay : String) : Bool :=
  listContains needle.data hay.data

/-- Python `str.strip()`. -/
def pyStrip (s : String) : List Char :=
  ((s.data.dropWhile pySpace).reverse.dropWhile pySpace).reverse

/-- Python `str.replace(a, b)` for single characters. -/
def replaceChar (a b : Char) (s : String) : String :=
  String.mk (s.data.map (fun c => if c = a then b else c))

/-- Helper for Python `str.title()`: the boolean carries whether the
previous character was alphabetic. -/
def titleAux : Bool → List Char → List Char
  | _, [] => []
  | prevAlpha, c :: tl =>
    let c' := if c.isAlpha then (if prevAlpha then c.toLower else c.toUpper) else c
    c' :: titleAux c.isAlpha tl

/-- Python `str.title()` (ASCII). -/
def titleCase (s : String) : String :=
  String.mk (titleAux false s.data)

/-- Python `round()`: round half to even, as used on the calculator results. -/
def pyRound (q : ℚ) : ℤ :=
  let f : ℤ := Int.floor q
  let r : ℚ := q - f
  if r < 1/2 then f
  else if 1/2 < r then f + 1
  else if f % 2 = 0 then f else f + 1

/-- Python `int()` truncation (toward zero), used on the percentage display. -/
def pyInt (q : ℚ) : ℤ :=
  if 0 ≤ q then Int.floor q else -(Int.floor (-q))

/-- Digits of a decimal literal to a natural number. -/
def digitsToNat (ds : List Char) : ℕ :=
  ds.foldl (fun acc c => 10 * acc + (c.toNat - '0'.toNat)) 0

/-! ### config/nutrition_data.py -/

/-- A macro-ratio preset (`MACRO_RATIOS` values): protein/carbs/fat fractions. -/
structure MacroRatio where
  protein : ℚ
  carbs : ℚ
  fat : ℚ
deriving DecidableEq, Repr

def MACRO_RATIOS_balanced : MacroRatio := ⟨0.25, 0.45, 0.30⟩

def MACRO_RATIOS_high_protein : MacroRatio := ⟨0.35, 0.35, 0.30⟩

/-- Embedding of `ACTIVITY_MULTIPLIERS` from config/nutrition_data.py. -/
def ACTIVITY_MULTIPLIERS : List (String × ℚ) :=
  [("sedentary", 1.2), ("lightly_active", 1.375), ("moderately_active", 1.55),
   ("very_active", 1.725), ("extremely_active", 1.9)]

/-- Embedding of `WEIGHT_GOALS` from config/nutrition_data.py (daily calorie delta). -/
def WEIGHT_GOALS : List (String × ℚ) :=
  [("lose_weight", -500), ("maintain_weight", 0), ("gain_weight", 500)]

/-- The keys of `COMMON_FOODS`, in dictionary order (the nutrition facts of
each food are never read by the meal-suggestion code paths). -/
def COMMON_FOOD_KEYS : List String :=
  ["chicken_breast", "salmon", "eggs", "quinoa", "brown_rice", "broccoli",
   "spinach", "avocado", "almonds", "greek_yogurt", "oats", "banana",
   "apple", "sweet_potato"]

/-- Embedding of `DIETARY_RESTRICTIONS` (the `excluded` lists; the `recommended` lists
are never read). -/
def DIETARY_RESTRICTIONS_excluded : List (String × List String) :=
  [("vegetarian", ["chicken_breast", "salmon"]),
   ("vegan", ["chicken_breast", "salmon", "eggs", "greek_yogurt"]),
   ("gluten_free", ["oats"]),
   ("dairy_free", ["greek_yogurt"])]

/-- Embedding of `VITAMIN_SOURCES` from config/nutrition_data.py. -/
def VITAMIN_SOURCES : List (String × List String) :=
  [("vitamin_c", ["broccoli", "spinach"]),
   ("vitamin_d", ["salmon", "eggs"]),
   ("vitamin_b12", ["salmon", "chicken_breast", "eggs"]),
   ("iron", ["spinach", "quinoa", "chicken_breast"]),
   ("calcium", ["greek_yogurt", "almonds", "broccoli"]),
   ("omega_3", ["salmon", "almonds"]),
   ("fiber", ["quinoa", "oats", "avocado", "broccoli"]),
   ("potassium", ["banana", "sweet_potato", "avocado"])]

/-! ### src/utils.py — Calculator -/

/-- Embedding of `calculate_bmr` (Mifflin-St Jeor); raises `ValueError` on a gender
outside the enum domain. -/
def calculate_bmr (weight height : ℚ) (age : ℕ) (gender : String) : Except String ℚ :=
  if lowerS gender ≠ "male" ∧ lowerS gender ≠ "female" then
    Except.error "Gender must be \x27male\x27 or \x27female\x27"
  else if lowerS gender = "male" then
    Except.ok (10 * weight + 6.25 * height - 5 * (age : ℚ) + 5)
  else
    Except.ok (10 * weight + 6.25 * height - 5 * (age : ℚ) - 161)

/-- Embedding of `calculate_tdee`; raises `ValueError` on an activity level outside
`ACTIVITY_MULTIPLIERS`. -/
def calculate_tdee (bmr : ℚ) (activity_level : String) : Except String ℚ :=
  match ACTIVITY_MULTIPLIERS.lookup activity_level with
  | some m => Except.ok (bmr * m)
  | none => Except.error "Activity level must be one of: [\x27sedentary\x27, \x27lightly_active\x27, \x27moderately_active\x27, \x27very_active\x27, \x27extremely_active\x27]"

/-- Embedding of `calculate_target_calories`; raises `ValueError` on a goal outside
`WEIGHT_GOALS`. -/
def calculate_target_calories (tdee : ℚ) (goal : String) : Except String ℚ :=
  match WEIGHT_GOALS.lookup goal with
  | some delta => Except.ok (tdee + delta)
  | none => Except.error "Goal must be one of: [\x27lose_weight\x27, \x27maintain_weight\x27, \x27gain_weight\x27]"

/-- Result of `calculate_macros`: grams of each macro plus the calories. -/
structure Macros where
  protein : ℚ
  carbs : ℚ
  fat : ℚ
  calories : ℚ
deriving DecidableEq, Repr

/-- Embedding of `calculate_macros`: 4 kcal/g protein and carbs, 9 kcal/g fat. -/
def calculate_macros (calories : ℚ) (r : MacroRatio) : Macros :=
  { protein := calories * r.protein / 4
    carbs := calories * r.carbs / 4
    fat := calories * r.fat / 9
    calories := calories }

/-! ### src/utils.py — Extractor (`extract_user_info`) -/

/-- Greedy parse of `\d+(?:\.\d+)?` at the head of the input; returns the
numeric value and the rest. -/
def parseNumAt (s : List Char) : Option (ℚ × List Char) :=
  let p := s.span Char.isDigit
  if p.1.isEmpty then none
  else
    let intPart : ℚ := (digitsToNat p.1 : ℚ)
    match p.2 with
    | '.' :: r2 =>
      let q := r2.span Char.isDigit
      if q.1.isEmpty then some (intPart, p.2)
      else some (intPart + (digitsToNat q.1 : ℚ) / ((10 : ℚ) ^ q.1.length), q.2)
    | _ => some (intPart, p.2)

/-- First alternative of `alts` that is a prefix of `s` (regex alternation
order); returns the matched alternative and the rest. -/
def matchUnit (alts : List (List Char)) (s : List Char) : Option (List Char × List Char) :=
  match alts with
  | [] => none
  | a :: rest =>
    if a.isPrefixOf s then some (a, s.drop a.length) else matchUnit rest s

/-- The weight units `kg|pounds?|lbs?` in regex alternation order. -/
def weightUnits : List (List Char) :=
  ["kg".data, "pounds".data, "pound".data, "lbs".data, "lb".data]

/-- Leftmost match of `(\d+(?:\.\d+)?)\s*(kg|pounds?|lbs?)`; pounds are
converted to kilograms with the factor 0.453592. -/
def findWeight : List Char → Option ℚ
  | [] => none
  | s@(_ :: tl) =>
    match (do
      let n ← parseNumAt s
      let r2 := n.2.dropWhile pySpace
      let u ← matchUnit weightUnits r2
      pure (n.1, u.1) : Option (ℚ × List Char)) with
    | some (v, u) =>
      some (if listContains "lb".data u ∨ listContains "pound".data u
            then v * 0.453592 else v)
    | none => findWeight tl

/-- Leftmost match of `(\d+(?:\.\d+)?)\s*(?:cm|centimeters?)`. -/
def findHeightCm : List Char → Option ℚ
  | [] => none
  | s@(_ :: tl) =>
    match (do
      let n ← parseNumAt s
      let r2 := n.2.dropWhile pySpace
      let _ ← matchUnit ["cm".data, "centimeters".data, "centimeter".data] r2
      pure n.1 : Option ℚ) with
    | some v => some v
    | none => findHeightCm tl

/-- Greedy parse of `\d+` at the head of the input. -/
def parseIntAt (s : List Char) : Option (ℕ × List Char) :=
  let p := s.span Char.isDigit
  if p.1.isEmpty then none else some (digitsToNat p.1, p.2)

/-- Leftmost match of the feet-and-inches height pattern (units: feet, ft
or the apostrophe character; inches, in or the double-quote character),
converted to centimeters via `(feet*12+inches)*2.54`. -/
def findFeetInches : List Char → Option ℚ
  | [] => none
  | s@(_ :: tl) =>
    match (do
      let f ← parseIntAt s
      let r2 := f.2.dropWhile pySpace
      let u1 ← matchUnit ["feet".data, "fee".data, "ft".data, [Char.ofNat 39]] r2
      let r3 := u1.2.dropWhile pySpace
      let i ← parseIntAt r3
      let r4 := i.2.dropWhile pySpace
      let _ ← matchUnit ["inches".data, "inche".data, "in".data, [Char.ofNat 34]] r4
      pure ((f.1 * 12 + i.1 : ℕ) : ℚ) : Option ℚ) with
    | some v => some ((v : ℚ) * 2.54)
    | none => findFeetInches tl

/-- The age unit alternation `(?:years?\s*old|yr|age)` at the head of the
input (with the regex backtracking between `years` and `year`). -/
def ageUnitAt (s : List Char) : Bool :=
  ("years".data.isPrefixOf s ∧
     "old".data.isPrefixOf ((s.drop 5).dropWhile pySpace)) ||
  ("year".data.isPrefixOf s ∧
     "old".data.isPrefixOf ((s.drop 4).dropWhile pySpace)) ||
  "yr".data.isPrefixOf s || "age".data.isPrefixOf s

/-- Leftmost match of `(\d+)\s*(?:years?\s*old|yr|age)`. -/
def findAge : List Char → Option ℕ
  | [] => none
  | s@(_ :: tl) =>
    match (do
      let a ← parseIntAt s
      let r2 := a.2.dropWhile pySpace
      if ageUnitAt r2 then pure a.1 else none : Option ℕ) with
    | some v => some v
    | none => findAge tl

/-- Does `s` end the word here, i.e. is the next character (if any) a
non-word character?  Used for the trailing `\b`. -/
def boundaryAfter (a s : List Char) : Bool :=
  match s.drop a.length with
  | [] => true
  | c :: _ => ¬ isWordChar c

/-- Search for `\b(?:alt₁|…|altₙ)\b` anywhere in the text; `prev` is the
character just before the current position (`none` at the start).  All
alternatives begin and end with word characters, so the boundaries reduce
to the neighbouring characters not being word characters. -/
def wbSearch (alts : List (List Char)) (prev : Option Char) : List Char → Bool
  | [] => false
  | s@(c :: tl) =>
    (alts.any fun a =>
      a.isPrefixOf s
      && (match prev with | none => true | some p => ¬ isWordChar p)
      && boundaryAfter a s)
    || wbSearch alts (some c) tl

/-- Word-boundary search over a whole string. -/
def wbSearchS (alts : List String) (s : List Char) : Bool :=
  wbSearch (alts.map String.data) none s

/-- A partial user profile: the dictionary built by `extract_user_info`
and accumulated in `NutritionExpert.user_profiles`. -/
structure UserProfile where
  weight : Option ℚ := none
  height : Option ℚ := none
  age : Option ℕ := none
  gender : Option String := none
  activity : Option String := none
  goal : Option String := none
  dietary_restriction : Option String := none
deriving DecidableEq, Repr

/-- Embedding of `extract_user_info` from src/utils.py: weight, height, age, gender,
activity level and goal patterns, each over the lowered text. -/
def extract_user_info (text : String) : UserProfile :=
  let t := (lowerS text).data
  { weight := findWeight t
    height :=
      match findHeightCm t with
      | some h => some h
      | none => findFeetInches t
    age := (findAge t).map (fun n => n)
    gender :=
      if wbSearchS ["male", "man", "guy"] t then some "male"
      else if wbSearchS ["female", "woman", "girl"] t then some "female"
      else none
    activity :=
      if wbSearchS ["sedentary", "desk job", "no exercise"] t then some "sedentary"
      else if wbSearchS ["lightly active", "light exercise"] t then some "lightly_active"
      else if wbSearchS ["moderately active", "moderate exercise"] t then some "moderately_active"
      else if wbSearchS ["very active", "heavy exercise"] t then some "very_active"
      else if wbSearchS ["extremely active", "athlete"] t then some "extremely_active"
      else none
    goal :=
      if wbSearchS ["lose weight", "weight loss", "cut", "cutting"] t then some "lose_weight"
      else if wbSearchS ["gain weight", "bulk", "bulking", "gain muscle"] t then some "gain_weight"
      else if wbSearchS ["maintain", "maintenance"] t then some "maintain_weight"
      else none
    dietary_restriction := none }

/-! ### src/utils.py — input validation -/

/-- The disallowed medical terms of `validate_user_input`. -/
def inappropriateTerms : List String :=
  ["medication", "drug", "prescription", "diagnose", "cure", "treat"]

/-- Embedding of `validate_user_input` from src/utils.py. -/
def validate_user_input (text : String) : Bool :=
  if text = "" ∨ (pyStrip text).length < 3 then false
  else if inappropriateTerms.any (fun t => containsSub t (lowerS text)) then false
  else true

/-! ### src/nutrition_expert.py -/

/-- The nine intent variants of `_classify_query` (eight named plus the
`general_nutrition` default). -/
inductive QueryType
  | calorie_calculation
  | macro_advice
  | meal_planning
  | nutrient_advice
  | weight_loss
  | weight_gain
  | recipe_advice
  | general_nutrition
deriving DecidableEq, Repr

/-- Embedding of `NutritionExpert._classify_query`: keyword-set matcher over the lowered
query, first match wins, defaulting to `general_nutrition`. -/
def classify_query (query : String) : QueryType :=
  if ["calorie", "calories", "bmr", "tdee", "metabolic rate"].any
      (fun w => containsSub w query) then QueryType.calorie_calculation
  else if ["protein", "carb", "fat", "macro", "macronutrient"].any
      (fun w => containsSub w query) then QueryType.macro_advice
  else if ["meal plan", "diet plan", "what to eat", "menu"].any
      (fun w => containsSub w query) then QueryType.meal_planning
  else if ["vitamin", "mineral", "nutrient", "deficiency"].any
      (fun w => containsSub w query) then QueryType.nutrient_advice
  else if ["lose weight", "weight loss", "diet", "cutting"].any
      (fun w => containsSub w query) then QueryType.weight_loss
  else if ["gain weight", "bulk", "muscle", "gain muscle"].any
      (fun w => containsSub w query) then QueryType.weight_gain
  else if ["recipe", "cook", "food", "ingredient"].any
      (fun w => containsSub w query) then QueryType.recipe_advice
  else QueryType.general_nutrition

/-- Python `dict.update` on one field: the new value wins when present. -/
def updField {α : Type} (new old : Option α) : Option α :=
  match new with
  | some v => some v
  | none => old

/-- Embedding of `self.user_profiles[user_id].update(user_info)`: per-field upsert of an
extraction into a stored profile. -/
def mergeProfile (stored extracted : UserProfile) : UserProfile :=
  { weight := updField extracted.weight stored.weight
    height := updField extracted.height stored.height
    age := updField extracted.age stored.age
    gender := updField extracted.gender stored.gender
    activity := updField extracted.activity stored.activity
    goal := updField extracted.goal stored.goal
    dietary_restriction := updField extracted.dietary_restriction stored.dietary_restriction }

/-- The required fields missing from a profile, in the order of
`required_fields` (weight, height, age, gender, activity, goal). -/
def missingFields (p : UserProfile) : List String :=
  (if p.weight.isSome then [] else ["weight"]) ++
  (if p.height.isSome then [] else ["height"]) ++
  (if p.age.isSome then [] else ["age"]) ++
  (if p.gender.isSome then [] else ["gender"]) ++
  (if p.activity.isSome then [] else ["activity"]) ++
  (if p.goal.isSome then [] else ["goal"])

/-- Embedding of `NutritionExpert._get_macro_ratio`: lose_weight gets the high-protein
preset, everything else (including out-of-domain goals) the balanced one. -/
def get_macro_ratio (goal : String) : MacroRatio :=
  if goal = "lose_weight" then MACRO_RATIOS_high_protein
  else if goal = "gain_weight" then MACRO_RATIOS_balanced
  else MACRO_RATIOS_balanced

/-- The computed dictionary returned by `calculate_daily_needs` on success:
all displayed numbers are rounded with Python `round` at this boundary. -/
structure DailyNeeds where
  bmr : ℤ
  tdee : ℤ
  target_calories : ℤ
  protein : ℤ
  carbs : ℤ
  fat : ℤ
  macro_ratio : MacroRatio
deriving DecidableEq, Repr

/-- Result of `calculate_daily_needs`: either the computed needs or the
`{"error": ...}` dictionary. -/
inductive NeedsResult
  | error (msg : String)
  | ok (d : DailyNeeds)
deriving DecidableEq, Repr

/-- Embedding of `NutritionExpert.calculate_daily_needs`: completeness gate over the six
required fields, then BMR → TDEE → target calories → macros, with
calculator `ValueError`s caught and turned into an error dictionary. -/
def calculate_daily_needs (p : UserProfile) : NeedsResult :=
  match p.weight, p.height, p.age, p.gender, p.activity, p.goal with
  | some w, some h, some a, some g, some act, some goal =>
    (match calculate_bmr w h a g with
     | Except.error e => NeedsResult.error ("Calculation error: " ++ e)
     | Except.ok bmr =>
       match calculate_tdee bmr act with
       | Except.error e => NeedsResult.error ("Calculation error: " ++ e)
       | Except.ok tdee =>
         match calculate_target_calories tdee goal with
         | Except.error e => NeedsResult.error ("Calculation error: " ++ e)
         | Except.ok target =>
           let ratio := get_macro_ratio goal
           let m := calculate_macros target ratio
           NeedsResult.ok
             { bmr := pyRound bmr
               tdee := pyRound tdee
               target_calories := pyRound target
               protein := pyRound m.protein
               carbs := pyRound m.carbs
               fat := pyRound m.fat
               macro_ratio := ratio })
  | _, _, _, _, _, _ =>
    NeedsResult.error ("Missing information: " ++ String.intercalate ", " (missingFields p))

/-- Embedding of `NutritionExpert.get_nutrient_sources`. -/
def get_nutrient_sources (nutrient : String) : List String :=
  match VITAMIN_SOURCES.lookup (replaceChar ' ' '_' (lowerS nutrient)) with
  | some sources => sources.map (fun f => titleCase (replaceChar '_' ' ' f))
  | none => []

/-- A meal suggestion record of `suggest_meals`. -/
structure MealSuggestion where
  meal : String
  ingredients : List String
  description : String
  prep_time : String
deriving DecidableEq, Repr

/-- Embedding of `_generate_breakfast_suggestions` (only the food keys of the suitable
foods are consulted; the topping list of the source is never read). -/
def breakfast_suggestions (foods : List String) : List MealSuggestion :=
  let bases := foods.filter (fun f => ["oats", "eggs", "greek_yogurt"].contains f)
  (if bases.contains "oats" then
    [{ meal := "Protein Overnight Oats"
       ingredients := ["Oats", "Greek Yogurt", "Banana", "Almonds"]
       description := "High-protein breakfast with complex carbs and healthy fats"
       prep_time := "5 min prep, overnight rest" }]
   else []) ++
  (if bases.contains "eggs" then
    [{ meal := "Veggie Scramble"
       ingredients := ["Eggs", "Spinach", "Avocado"]
       description := "Protein-rich eggs with nutrient-dense vegetables"
       prep_time := "10 minutes" }]
   else [])

/-- Embedding of `_generate_main_meal_suggestions`. -/
def main_meal_suggestions (foods : List String) : List MealSuggestion :=
  let proteins := foods.filter (fun f => ["chicken_breast", "salmon", "quinoa"].contains f)
  (if proteins.contains "salmon" then
    [{ meal := "Baked Salmon Bowl"
       ingredients := ["Salmon", "Quinoa", "Broccoli", "Avocado"]
       description := "Omega-3 rich salmon with complete protein quinoa and fiber-rich vegetables"
       prep_time := "25 minutes" }]
   else []) ++
  (if proteins.contains "chicken_breast" then
    [{ meal := "Chicken Power Bowl"
       ingredients := ["Chicken Breast", "Brown Rice", "Spinach", "Sweet Potato"]
       description := "Lean protein with complex carbs and antioxidant-rich vegetables"
       prep_time := "30 minutes" }]
   else [])

/-- Embedding of `_generate_snack_suggestions` (two fixed suggestions). -/
def snack_suggestions (_foods : List String) : List MealSuggestion :=
  [{ meal := "Apple Almond Butter"
     ingredients := ["Apple", "Almonds"]
     description := "Balanced snack with fiber and healthy fats"
     prep_time := "2 minutes" },
   { meal := "Greek Yogurt Parfait"
     ingredients := ["Greek Yogurt", "Banana"]
     description := "High-protein snack with natural sweetness"
     prep_time := "3 minutes" }]

/-- Embedding of `NutritionExpert.suggest_meals`, taking the `dietary_restriction`
preference and the meal type; at most six suggestions. -/
def suggest_meals (dietary_restriction : String) (meal_type : String) : List MealSuggestion :=
  let excluded :=
    match DIETARY_RESTRICTIONS_excluded.lookup dietary_restriction with
    | some ex => ex
    | none => []
  let suitable := COMMON_FOOD_KEYS.filter (fun f => ¬ excluded.contains f)
  ((if meal_type = "breakfast" ∨ meal_type = "any" then breakfast_suggestions suitable else []) ++
   (if meal_type = "lunch" ∨ meal_type = "dinner" ∨ meal_type = "any" then main_meal_suggestions suitable else []) ++
   (if meal_type = "snack" ∨ meal_type = "any" then snack_suggestions suitable else [])).take 6

/-- The calorie-calculation branch of `generate_personalized_advice`. -/
def calorieAdviceText (d : DailyNeeds) : String :=
  "Based on your profile, here are your daily needs:\n\n" ++
  "ğŸ”¥ **Daily Calories**: " ++ toString d.target_calories ++ " calories\n" ++
  "ğŸ“Š **Macronutrient Breakdown**:\n" ++
  "â€¢ Protein: " ++ toString d.protein ++ "g (" ++ toString (pyInt (d.macro_ratio.protein * 100)) ++ "%)\n" ++
  "â€¢ Carbs: " ++ toString d.carbs ++ "g (" ++ toString (pyInt (d.macro_ratio.carbs * 100)) ++ "%)\n" ++
  "â€¢ Fat: " ++ toString d.fat ++ "g (" ++ toString (pyInt (d.macro_ratio.fat * 100)) ++ "%)\n\n" ++
  "ğŸ’¡ **Additional Info**:\n" ++
  "â€¢ BMR (at rest): " ++ toString d.bmr ++ " calories\n" ++
  "â€¢ TDEE (with activity): " ++ toString d.tdee ++ " calories"

/-- The weight-loss branch of `generate_personalized_advice`. -/
def weightLossAdviceText : String :=
  "For healthy weight loss, aim for:\n\n" ++
  "ğŸ¯ **Safe Rate**: 1-2 pounds per week\n" ++
  "ğŸ“‰ **Calorie Deficit**: 500-750 calories below maintenance\n" ++
  "ğŸ½ï¸ **Focus On**:\n" ++
  "â€¢ High protein to preserve muscle (0.8-1g per lb bodyweight)\n" ++
  "â€¢ Plenty of vegetables for nutrients and satiety\n" ++
  "â€¢ Stay hydrated (half your bodyweight in ounces of water)\n" ++
  "â€¢ Consistent meal timing\n\n" ++
  "âš ï¸ Avoid extreme restrictions - sustainable habits lead to lasting results!"

/-- The weight-gain branch of `generate_personalized_advice`. -/
def weightGainAdviceText : String :=
  "For healthy weight gain, consider:\n\n" ++
  "ğŸ¯ **Safe Rate**: 0.5-1 pound per week\n" ++
  "ğŸ“ˆ **Calorie Surplus**: 300-500 calories above maintenance\n" ++
  "ğŸ‹ï¸ **Focus On**:\n" ++
  "â€¢ Adequate protein for muscle building (1-1.2g per lb bodyweight)\n" ++
  "â€¢ Complex carbs around workouts\n" ++
  "â€¢ Healthy fats for hormone production\n" ++
  "â€¢ Consistent strength training\n\n" ++
  "ğŸ’¡ Quality over quantity - choose nutrient-dense foods!"

/-- The fallback branch of `generate_personalized_advice` (contains the
mid-interview trigger phrase "please share"). -/
def shareStatsText : String :=
  "I\x27m here to help with your nutrition goals! For personalized advice, please share:\n\n" ++
  "ğŸ“ **Your Stats**: Age, weight, height, gender\n" ++
  "ğŸƒ **Activity Level**: Sedentary to very active\n" ++
  "ğŸ¯ **Goals**: Weight loss, gain, or maintenance\n" ++
  "ğŸš« **Restrictions**: Any dietary limitations or allergies\n\n" ++
  "The more details you provide, the better I can tailor my recommendations to your needs!"

/-- Embedding of `NutritionExpert.generate_personalized_advice`. -/
def generate_personalized_advice (p : UserProfile) (query_type : QueryType) : String :=
  let dn := calculate_daily_needs p
  match query_type, dn with
  | QueryType.calorie_calculation, NeedsResult.ok d => calorieAdviceText d
  | QueryType.weight_loss, _ => weightLossAdviceText
  | QueryType.weight_gain, _ => weightGainAdviceText
  | _, _ => shareStatsText

/-! ### src/chatbot.py — DietChatbot -/

/-- Python exceptions that can escape `process_message` (the `IndexError`
raised by `need_info[0]` on an empty list in `_ask_for_specific_info`). -/
inductive PyExn
  | indexError
deriving DecidableEq, Repr

/-- One entry of the per-user conversation history. -/
structure ChatMsg where
  role : String
  content : String
deriving DecidableEq, Repr

/-- The mutable state of a `DietChatbot` (with its `NutritionExpert`):
per-user profiles and per-user conversation histories.  The Python semantics of
"key absent from the dict" is modelled as the empty profile / empty
history, which is exactly what the code initialises absent keys to. -/
structure ChatState where
  profiles : String → UserProfile
  histories : String → List ChatMsg

/-- A fresh chatbot: no profiles, no histories. -/
def initialState : ChatState :=
  { profiles := fun _ => {}, histories := fun _ => [] }

/-- Embedding of `NutritionExpert.analyze_user_query`: extract from the query, merge
into the stored profile, classify the lowered query. -/
structure QueryAnalysis where
  query_type : QueryType
  extracted_info : UserProfile
  user_profile : UserProfile
deriving DecidableEq, Repr

def analyze_user_query (st : ChatState) (query uid : String) : QueryAnalysis × ChatState :=
  let user_info := extract_user_info query
  let merged := mergeProfile (st.profiles uid) user_info
  ({ query_type := classify_query (lowerS query)
     extracted_info := user_info
     user_profile := merged },
   { st with profiles := fun u => if u = uid then merged else st.profiles u })

/-- The fixed redirect response for invalid input. -/
def redirectText : String :=
  "I\x27m here to help with nutrition and diet questions. Could you please ask me something about food, nutrition, or healthy eating?"

/-- Embedding of `_generate_fallback_response`: the five deterministic filler responses
used when the generative model is unavailable; `random.choice` is
modelled by an index. -/
def fallbackResponses : List String :=
  ["That\x27s a great nutrition question! Could you provide more details so I can give you the best advice?",
   "I\x27m here to help with your nutrition goals. What specific aspect would you like to focus on?",
   "Thanks for your question! To give you personalized advice, could you share more about your current situation?",
   "I\x27d love to help you with that! Could you tell me more about your dietary preferences or goals?",
   "That\x27s an interesting nutrition topic. What would you like to know specifically?"]

/-- Embedding of `_generate_conversational_response` with the model absent
(`model = None`): the fallback response selected by the random index. -/
def generate_conversational_response (ridx : Nat) (_message _uid : String) : String :=
  fallbackResponses.getD (ridx % fallbackResponses.length) ""

/-- Embedding of `_format_complete_advice`. -/
def format_complete_advice (d : DailyNeeds) (_query_type : QueryType) (_p : UserProfile) : String :=
  "Perfect! Based on your information, here\x27s your personalized nutrition plan:\n\n" ++
  "🔥 **Daily Calories**: " ++ toString d.target_calories ++ " calories\n" ++
  "📊 **Macronutrient Breakdown**:\n" ++
  "• Protein: " ++ toString d.protein ++ "g (" ++ toString (pyInt (d.macro_ratio.protein * 100)) ++ "%)\n" ++
  "• Carbs: " ++ toString d.carbs ++ "g (" ++ toString (pyInt (d.macro_ratio.carbs * 100)) ++ "%)\n" ++
  "• Fat: " ++ toString d.fat ++ "g (" ++ toString (pyInt (d.macro_ratio.fat * 100)) ++ "%)\n\n" ++
  "💡 **Your Numbers**:\n" ++
  "• BMR (at rest): " ++ toString d.bmr ++ " calories\n" ++
  "• TDEE (with activity): " ++ toString d.tdee ++ " calories\n\n" ++
  "🎯 **Next Steps**: Would you like meal suggestions, specific recipes, or have questions about these numbers?"

/-- Embedding of `_ask_for_specific_info`: reports the known fields (in the order age,
weight, height, gender, activity) and asks for `need_info[0]`.  The goal
field is not among the five checked fields, so a profile missing only the
goal yields an empty `need_info` and the final indexing raises
`IndexError`. -/
def ask_for_specific_info (_missing_info : String) (p : UserProfile) : Except PyExn String :=
  let have_info :=
    (match p.age with | some a => ["Age: " ++ toString a] | none => []) ++
    (match p.weight with | some w => ["Weight: " ++ toString (pyRound w) ++ " kg"] | none => []) ++
    (match p.height with | some h => ["Height: " ++ toString (pyRound h) ++ " cm"] | none => []) ++
    (match p.gender with | some g => ["Gender: " ++ g] | none => []) ++
    (match p.activity with | some a => ["Activity: " ++ a] | none => [])
  let need_info :=
    (if p.age.isSome then [] else ["age"]) ++
    (if p.weight.isSome then [] else ["weight"]) ++
    (if p.height.isSome then [] else ["height"]) ++
    (if p.gender.isSome then [] else ["gender"]) ++
    (if p.activity.isSome then [] else ["activity level"])
  let response :=
    if have_info ≠ [] then "Thanks! I have: " ++ String.intercalate ", " have_info
    else "I\x27m gathering your information."
  let response := response ++ "\n\n🤔 I still need your **" ++
    String.intercalate " and " need_info ++ "** to calculate your personalized nutrition plan."
  match need_info with
  | [] => Except.error PyExn.indexError
  | first :: _ => Except.ok (response ++ "\n\nCould you tell me your " ++ first ++ "?")

/-- The `daily_needs`-complete branch of `_handle_macro_query`. -/
def macroBreakdownText (d : DailyNeeds) : String :=
  "Here\x27s your daily macronutrient breakdown:\n\n" ++
  "🥩 **Protein: " ++ toString d.protein ++ "g**\n" ++
  "• Builds and repairs muscle tissue\n" ++
  "• Aim for 20-30g per meal\n" ++
  "• Good sources: chicken, fish, eggs, beans, yogurt\n\n" ++
  "🍞 **Carbohydrates: " ++ toString d.carbs ++ "g**\n" ++
  "• Primary energy source for your body\n" ++
  "• Focus on complex carbs (oats, quinoa, sweet potato)\n" ++
  "• Time around workouts for best utilization\n\n" ++
  "🥑 **Fats: " ++ toString d.fat ++ "g**\n" ++
  "• Essential for hormone production and nutrient absorption\n" ++
  "• Include healthy fats: nuts, olive oil, avocado, fatty fish\n" ++
  "• About 20-35% of total calories\n\n" ++
  "💡 **Pro tip**: Don\x27t stress about hitting exact numbers daily - focus on weekly averages and listen to your body!"

/-- The incomplete-profile branch of `_handle_macro_query`. -/
def macroGenericText : String :=
  "To give you personalized macro recommendations, I\x27d need to know:\n\n" ++
  "📝 Your age, weight, height, and gender\n" ++
  "🏃 Your activity level\n" ++
  "🎯 Your specific goals (lose weight, gain muscle, maintain)\n\n" ++
  "Generally, a balanced approach includes:\n" ++
  "• **Protein**: 0.8-1.2g per lb bodyweight\n" ++
  "• **Carbs**: 45-65% of total calories\n" ++
  "• **Fat**: 20-35% of total calories"

/-- Embedding of `_handle_macro_query`. -/
def handle_macro_query (_message : String) (p : UserProfile) : String :=
  match calculate_daily_needs p with
  | NeedsResult.ok d => macroBreakdownText d
  | NeedsResult.error _ => macroGenericText

/-- The numbered formatting loop of `_handle_meal_planning`. -/
def formatSuggestions : Nat → List MealSuggestion → String
  | _, [] => ""
  | i, s :: rest =>
    "**" ++ toString i ++ ". " ++ s.meal ++ "**\n" ++
    "• Ingredients: " ++ String.intercalate ", " s.ingredients ++ "\n" ++
    "• " ++ s.description ++ "\n" ++
    "• Prep time: " ++ s.prep_time ++ "\n\n" ++
    formatSuggestions (i + 1) rest

/-- Embedding of `_handle_meal_planning`. -/
def handle_meal_planning (message : String) (p : UserProfile) : String :=
  let meal_type :=
    if containsSub "breakfast" (lowerS message) then "breakfast"
    else if containsSub "lunch" (lowerS message) then "lunch"
    else if containsSub "dinner" (lowerS message) then "dinner"
    else if containsSub "snack" (lowerS message) then "snack"
    else "any"
  let suggestions := suggest_meals (p.dietary_restriction.getD "") meal_type
  if suggestions = [] then
    "I\x27d love to help with meal planning! Could you tell me about any dietary restrictions or preferences you have?"
  else
    "🍽️ **Meal Suggestions for " ++
    (if meal_type ≠ "any" then titleCase meal_type else "You") ++ ":**\n\n" ++
    formatSuggestions 1 suggestions ++
    "💡 **Tip**: Prepare ingredients in advance for quicker meal assembly during busy days!"

/-- The no-nutrient-found menu of `_handle_nutrient_query`. -/
def nutrientMenuText : String :=
  "I can help you learn about various nutrients! Some popular ones include:\n\n" ++
  "🌟 **Vitamins**: C, D, B12\n" ++
  "⚡ **Minerals**: Iron, Calcium, Potassium\n" ++
  "🐟 **Essential Fats**: Omega-3 fatty acids\n" ++
  "🌾 **Fiber**: For digestive health\n\n" ++
  "What specific nutrient would you like to know more about?"

/-- Embedding of `_handle_nutrient_query`. -/
def handle_nutrient_query (message : String) : String :=
  let nutrients := ["vitamin c", "vitamin d", "vitamin b12", "iron", "calcium",
                    "omega 3", "fiber", "potassium"]
  match nutrients.find? (fun n => containsSub n (lowerS message)) with
  | some n =>
    let sources := get_nutrient_sources n
    if sources ≠ [] then
      "🌟 **Great sources of " ++ titleCase n ++ ":**\n\n" ++
      String.intercalate "\n" (sources.map (fun s => "• " ++ s)) ++
      "\n\n💡 **Tip**: Try to get nutrients from whole foods when possible - they\x27re better absorbed than supplements!"
    else
      "I\x27d be happy to help with " ++ n ++ " information! Could you be more specific about what you\x27d like to know?"
  | none => nutrientMenuText

/-- Embedding of `_handle_recipe_query` (fixed text). -/
def handle_recipe_query (_message : String) (_p : UserProfile) : String :=
  "🍳 **Healthy Cooking Tips:**\n\n" ++
  "**Quick & Nutritious Ideas:**\n" ++
  "• **Protein + Veggie Bowl**: Any lean protein with roasted vegetables\n" ++
  "• **Smoothie**: Protein powder, spinach, berries, almond milk\n" ++
  "• **Egg Scramble**: Eggs with whatever vegetables you have on hand\n\n" ++
  "**Cooking Methods for Health:**\n" ++
  "• Baking, grilling, or steaming instead of frying\n" ++
  "• Use herbs and spices instead of excess salt\n" ++
  "• Meal prep 2-3 dishes on Sunday for the week\n\n" ++
  "**Smart Substitutions:**\n" ++
  "• Greek yogurt instead of sour cream\n" ++
  "• Cauliflower rice instead of regular rice\n" ++
  "• Zucchini noodles for pasta\n\n" ++
  "What type of dish or cooking method would you like specific guidance on?"

/-- Embedding of `DietChatbot._generate_response`: dispatch on the query type. -/
def generate_response (ridx : Nat) (message : String) (analysis : QueryAnalysis)
    (uid : String) : String :=
  match analysis.query_type with
  | QueryType.calorie_calculation =>
    generate_personalized_advice analysis.user_profile QueryType.calorie_calculation
  | QueryType.macro_advice => handle_macro_query message analysis.user_profile
  | QueryType.meal_planning => handle_meal_planning message analysis.user_profile
  | QueryType.nutrient_advice => handle_nutrient_query message
  | QueryType.weight_loss =>
    generate_personalized_advice analysis.user_profile QueryType.weight_loss
  | QueryType.weight_gain =>
    generate_personalized_advice analysis.user_profile QueryType.weight_gain
  | QueryType.recipe_advice => handle_recipe_query message analysis.user_profile
  | QueryType.general_nutrition => generate_conversational_response ridx message uid

/-- The mid-interview trigger phrases scanned in the previous assistant
message. -/
def triggerPhrases : List String :=
  ["i need", "please share", "what\x27s your", "tell me about"]

/-- Embedding of `DietChatbot._generate_contextual_response`. -/
def generate_contextual_response (ridx : Nat) (st : ChatState) (message : String)
    (analysis : QueryAnalysis) (uid : String) : Except PyExn String :=
  let conversation := st.histories uid
  if conversation.length ≥ 2 then
    let last_bot := ((conversation.get? (conversation.length - 2)).map ChatMsg.content).getD ""
    if triggerPhrases.any (fun p => containsSub p (lowerS last_bot)) then
      match calculate_daily_needs analysis.user_profile with
      | NeedsResult.ok d =>
        Except.ok (format_complete_advice d analysis.query_type analysis.user_profile)
      | NeedsResult.error msg => ask_for_specific_info msg analysis.user_profile
    else Except.ok (generate_response ridx message analysis uid)
  else Except.ok (generate_response ridx message analysis uid)

/-- Embedding of `DietChatbot._needs_disclaimer`. -/
def needs_disclaimer (query_type : QueryType) : Bool :=
  query_type = QueryType.weight_loss ∨ query_type = QueryType.weight_gain ∨
  query_type = QueryType.nutrient_advice ∨ query_type = QueryType.calorie_calculation

/-- Truncation of the conversation history to the most recent 20 entries
(`history[-20:]` applied when the length exceeds 20). -/
def truncate20 (l : List ChatMsg) : List ChatMsg :=
  if l.length > 20 then l.drop (l.length - 20) else l

/-- Appending one message to the conversation of one user history. -/
def appendMsg (st : ChatState) (uid role content : String) : ChatState :=
  { st with histories := fun u =>
      if u = uid then st.histories u ++ [{ role := role, content := content }]
      else st.histories u }

/-- The valid-input path of `process_message`: user-message append,
analysis (profile merge), contextual response, assistant-message append,
truncation to the last 20 entries. -/
def process_valid (ridx : Nat) (st : ChatState) (message uid : String) :
    Except PyExn (String × Bool) × ChatState :=
  let st1 := appendMsg st uid "user" message
  let a := analyze_user_query st1 message uid
  match generate_contextual_response ridx a.2 message a.1 uid with
  | Except.error e => (Except.error e, a.2)
  | Except.ok response =>
    let hist3 := truncate20 (a.2.histories uid ++ [{ role := "assistant", content := response }])
    let st3 : ChatState := { a.2 with histories := fun u => if u = uid then hist3 else a.2.histories u }
    (Except.ok (response, needs_disclaimer a.1.query_type), st3)

/-- Embedding of `DietChatbot.process_message`: validation, then the valid-input path.
Returns the Python return value (or the escaped exception) together with
the state as mutated so far. -/
def process_message (ridx : Nat) (st : ChatState) (message uid : String) :
    Except PyExn (String × Bool) × ChatState :=
  if validate_user_input message = false then
    (Except.ok (redirectText, false), st)
  else
    process_valid ridx st message uid

/-! ### Specification-side definitions and concrete scenarios -/

/-- The classifier rule table exactly as the specification lists it
(§4.3): intents in order with their keyword sets, first match wins. -/
def specClassifierRules : List (QueryType × List String) :=
  [(QueryType.calorie_calculation, ["calorie", "calories", "bmr", "tdee", "metabolic rate"]),
   (QueryType.macro_advice, ["protein", "carb", "fat", "macro", "macronutrient"]),
   (QueryType.meal_planning, ["meal plan", "diet plan", "what to eat", "menu"]),
   (QueryType.nutrient_advice, ["vitamin", "mineral", "nutrient", "deficiency"]),
   (QueryType.weight_loss, ["lose weight", "weight loss", "diet", "cutting"]),
   (QueryType.weight_gain, ["gain weight", "bulk", "muscle", "gain muscle"]),
   (QueryType.recipe_advice, ["recipe", "cook", "food", "ingredient"])]

/-- First-match evaluation of a classifier rule table, falling through to
`general_nutrition` (the evaluation contract of the specification). -/
def firstMatchClassify : List (QueryType × List String) → String → QueryType
  | [], _ => QueryType.general_nutrition
  | (qt, kws) :: rest, q =>
    if kws.any (fun w => containsSub w q) then qt else firstMatchClassify rest q

/-- First message of the end-to-end scenario of the spec (§8). -/
def c1_msg1 : String := "I want to lose weight"

/-- Second message of the end-to-end scenario of the spec (§8). -/
def c1_msg2 : String := "I\x27m 25 male 175cm 70kg moderately active"

/-- First turn of the scenario, from a fresh chatbot. -/
def c1_turn1 := process_message 0 initialState c1_msg1 "u1"

/-- Second turn of the scenario. -/
def c1_turn2 := process_message 0 c1_turn1.2 c1_msg2 "u1"

/-- A first turn whose reply contains the mid-interview trigger phrase
"please share" (the generic branch of `generate_personalized_advice`). -/
def c2_msg1 : String := "How many calories should I eat each day?"

/-- A second turn supplying five of the six required fields — everything
except the goal. -/
def c2_msg2 : String := "I am 70kg 175cm 25 years old male moderately active"

def c2_turn1 := process_message 0 initialState c2_msg1 "u2"

def c2_turn2 := process_message 0 c2_turn1.2 c2_msg2 "u2"

def c9_turn1 := process_message 0 initialState c2_msg1 "u9"

def c9_turn2 := process_message 0 c9_turn1.2 c2_msg2 "u9"

/-- A complete profile missing only the gender, for the completeness
gate. -/
def c7_profile : UserProfile :=
  { weight := some 70, height := some 175, age := some 25, gender := none,
    activity := some "moderately_active", goal := some "lose_weight" }

/-! ### Helper lemmas -/

/-- Upserting the same value twice is the same as upserting it once. -/
theorem updField_self {α : Type} (a b : Option α) :
    updField a (updField a b) = updField a b := by
  cases a <;> rfl

/-- Re-merging the same extraction into a profile changes nothing. -/
theorem mergeProfile_idem (p e : UserProfile) :
    mergeProfile (mergeProfile p e) e = mergeProfile p e := by
  simp only [mergeProfile, updField_self]

/-- The truncated history never exceeds 20 entries. -/
theorem length_truncate20 (l : List ChatMsg) : (truncate20 l).length ≤ 20 := by
  unfold truncate20
  split
  · rename_i h
    rw [List.length_drop]
    omega
  · rename_i h
    omega

/-! ### Claim theorems -/

/-- C3: the Calculator computes exactly the Mifflin-St Jeor formulas
(male +5, female -161, so bmr(70,175,25,male) = 1673.75, displayed
rounded as 1674), TDEE as BMR times the activity multiplier, and target
calories as TDEE plus the goal delta — with no rounding inside these
functions (rounding happens only in `calculate_daily_needs` at the
presentation boundary). -/
theorem c3_calculator_exact :
    (∀ (w h : ℚ) (a : ℕ), calculate_bmr w h a "male"
        = Except.ok (10 * w + 6.25 * h - 5 * (a : ℚ) + 5)) ∧
    (∀ (w h : ℚ) (a : ℕ), calculate_bmr w h a "female"
        = Except.ok (10 * w + 6.25 * h - 5 * (a : ℚ) - 161)) ∧
    calculate_bmr 70 175 25 "male" = Except.ok 1673.75 ∧
    pyRound 1673.75 = 1674 ∧
    (∀ b : ℚ, calculate_tdee b "sedentary" = Except.ok (b * 1.2)) ∧
    (∀ b : ℚ, calculate_tdee b "lightly_active" = Except.ok (b * 1.375)) ∧
    (∀ b : ℚ, calculate_tdee b "moderately_active" = Except.ok (b * 1.55)) ∧
    (∀ b : ℚ, calculate_tdee b "very_active" = Except.ok (b * 1.725)) ∧
    (∀ b : ℚ, calculate_tdee b "extremely_active" = Except.ok (b * 1.9)) ∧
    (∀ t : ℚ, calculate_target_calories t "lose_weight" = Except.ok (t + (-500))) ∧
    (∀ t : ℚ, calculate_target_calories t "maintain_weight" = Except.ok (t + 0)) ∧
    (∀ t : ℚ, calculate_target_calories t "gain_weight" = Except.ok (t + 500)) := by
  have hbmr : calculate_bmr 70 175 25 "male"
      = Except.ok (10 * (70 : ℚ) + 6.25 * 175 - 5 * ((25 : ℕ) : ℚ) + 5) := rfl
  have hval : (10 * (70 : ℚ) + 6.25 * 175 - 5 * ((25 : ℕ) : ℚ) + 5) = 1673.75 := by
    norm_num
  have hfloor : ⌊(1673.75 : ℚ)⌋ = (1673 : ℤ) := by
    rw [Int.floor_eq_iff]
    norm_num
  have hround : pyRound 1673.75 = 1674 := by
    simp only [pyRound, hfloor]
    norm_num
  refine ⟨fun w h a => rfl, fun w h a => rfl,
    hbmr.trans (congrArg Except.ok hval), hround,
    fun b => rfl, fun b => rfl, fun b => rfl, fun b => rfl, fun b => rfl,
    fun t => rfl, fun t => rfl, fun t => rfl⟩

/-- C4: `_classify_query` is exactly first-match evaluation of the
eight-rule table of the spec (falling through to `general_nutrition`), and in
particular any text containing "calories" — whatever else it contains,
e.g. "recipe" — classifies as `calorie_calculation`. -/
theorem c4_classifier_order :
    (∀ q : String, classify_query q = firstMatchClassify specClassifierRules q) ∧
    (∀ q : String, containsSub "calories" q = true → containsSub "recipe" q = true →
      classify_query q = QueryType.calorie_calculation) := by
  constructor
  · intro q
    rfl
  · intro q h1 _h2
    unfold classify_query
    have hany : (["calorie", "calories", "bmr", "tdee", "metabolic rate"].any
        (fun w => containsSub w q)) = true := by
      simp only [List.any_cons, List.any_nil, Bool.or_eq_true]
      exact Or.inr (Or.inl h1)
    simp [hany]

/-- Witness for C4 at a concrete input containing both keywords. -/
theorem c4_witness :
    containsSub "calories" "calories in this recipe" = true ∧
    containsSub "recipe" "calories in this recipe" = true ∧
    classify_query "calories in this recipe" = QueryType.calorie_calculation :=
  ⟨by decide, by decide,
   c4_classifier_order.2 "calories in this recipe" (by decide) (by decide)⟩

/-- C5 counterexample: the claim fails for "154 lbs".  The Extractor
produces 154 · 0.453592 = 69.853168 kg, which is below 70 − 0.01, i.e.
not within 0.01 of 70. -/
theorem c5_counterexample :
    (extract_user_info "154 lbs").weight = some (154 * (0.453592 : ℚ)) ∧
    154 * (0.453592 : ℚ) < 70 - 0.01 := by
  constructor
  · rfl
  · norm_num

/-- C5 amended: "70kg" extracts exactly 70 kg, and "154 lbs" extracts
154 · 0.453592 = 69.853168 kg, which is within 0.15 of 70 (but not
within 0.01). -/
theorem c5_amended :
    (extract_user_info "70kg").weight = some (70 : ℚ) ∧
    (extract_user_info "154 lbs").weight = some (154 * (0.453592 : ℚ)) ∧
    70 - 0.15 ≤ 154 * (0.453592 : ℚ) ∧ 154 * (0.453592 : ℚ) ≤ 70 + 0.15 := by
  refine ⟨rfl, rfl, by norm_num, by norm_num⟩

/-- C6: the analyze/extract/merge step is idempotent — running it twice
with the same text leaves every stored user profile identical to running
it once (Python dict `update` re-applied with the same extraction). -/
theorem c6_merge_idempotent (st : ChatState) (query uid u : String) :
    ((analyze_user_query (analyze_user_query st query uid).2 query uid).2).profiles u
      = ((analyze_user_query st query uid).2).profiles u := by
  simp only [analyze_user_query]
  by_cases h : u = uid
  · simp [h, mergeProfile_idem]
  · simp [h]

/-- C7: a profile containing weight, height, age, activity and goal but
no gender makes `calculate_daily_needs` return the error dictionary
naming exactly the missing field "gender" — a normal result, not an
exception. -/
theorem c7_missing_only_gender (p : UserProfile)
    (hw : p.weight.isSome = true) (hh : p.height.isSome = true)
    (ha : p.age.isSome = true) (hact : p.activity.isSome = true)
    (hg : p.goal.isSome = true) (hgen : p.gender = none) :
    calculate_daily_needs p = NeedsResult.error "Missing information: gender" := by
  obtain ⟨w, hw'⟩ := Option.isSome_iff_exists.mp hw
  obtain ⟨h, hh'⟩ := Option.isSome_iff_exists.mp hh
  obtain ⟨a, ha'⟩ := Option.isSome_iff_exists.mp ha
  obtain ⟨act, hact'⟩ := Option.isSome_iff_exists.mp hact
  obtain ⟨g, hg'⟩ := Option.isSome_iff_exists.mp hg
  simp [calculate_daily_needs, missingFields, hw', hh', ha', hact', hg', hgen]
  rfl

/-- Witness for C7 at a concrete five-field profile. -/
theorem c7_witness :
    c7_profile.gender = none ∧
    calculate_daily_needs c7_profile = NeedsResult.error "Missing information: gender" :=
  ⟨rfl, c7_missing_only_gender c7_profile rfl rfl rfl rfl rfl rfl⟩

/-- C8 counterexample: the macro-ratio selection does NOT fail on an
out-of-domain goal — it silently returns the balanced preset. -/
theorem c8_counterexample :
    WEIGHT_GOALS.lookup "not_a_goal" = none ∧
    get_macro_ratio "not_a_goal" = MACRO_RATIOS_balanced :=
  ⟨rfl, rfl⟩

/-- C8 amended: the three calculator functions do fail with a
`ValueError` on out-of-domain gender/activity/goal values and never
substitute a default, but `_get_macro_ratio` is total: it maps every
goal other than lose_weight — including out-of-domain values — to the
balanced preset. -/
theorem c8_amended :
    (∀ (g : String) (w h : ℚ) (a : ℕ), lowerS g ≠ "male" → lowerS g ≠ "female" →
      calculate_bmr w h a g
        = Except.error "Gender must be \x27male\x27 or \x27female\x27") ∧
    (∀ (act : String) (b : ℚ), ACTIVITY_MULTIPLIERS.lookup act = none →
      calculate_tdee b act
        = Except.error "Activity level must be one of: [\x27sedentary\x27, \x27lightly_active\x27, \x27moderately_active\x27, \x27very_active\x27, \x27extremely_active\x27]") ∧
    (∀ (gl : String) (t : ℚ), WEIGHT_GOALS.lookup gl = none →
      calculate_target_calories t gl
        = Except.error "Goal must be one of: [\x27lose_weight\x27, \x27maintain_weight\x27, \x27gain_weight\x27]") ∧
    (∀ gl : String, gl ≠ "lose_weight" → get_macro_ratio gl = MACRO_RATIOS_balanced) := by
  refine ⟨?_, ?_, ?_, ?_⟩
  · intro g w h a h1 h2
    unfold calculate_bmr
    rw [if_pos ⟨h1, h2⟩]
  · intro act b hl
    unfold calculate_tdee
    rw [hl]
  · intro gl t hl
    unfold calculate_target_calories
    rw [hl]
  · intro gl h1
    unfold get_macro_ratio
    rw [if_neg h1]
    by_cases h2 : gl = "gain_weight"
    · rw [if_pos h2]
    · rw [if_neg h2]

/-- Witness for C8 at a concrete out-of-domain value "alien". -/
theorem c8_witness :
    calculate_bmr 70 175 25 "alien"
      = Except.error "Gender must be \x27male\x27 or \x27female\x27" ∧
    calculate_tdee 1500 "alien"
      = Except.error "Activity level must be one of: [\x27sedentary\x27, \x27lightly_active\x27, \x27moderately_active\x27, \x27very_active\x27, \x27extremely_active\x27]" ∧
    calculate_target_calories 2000 "alien"
      = Except.error "Goal must be one of: [\x27lose_weight\x27, \x27maintain_weight\x27, \x27gain_weight\x27]" ∧
    get_macro_ratio "alien" = MACRO_RATIOS_balanced :=
  ⟨c8_amended.1 "alien" 70 175 25 (by decide) (by decide),
   c8_amended.2.1 "alien" 1500 (by decide),
   c8_amended.2.2.1 "alien" 2000 (by decide),
   c8_amended.2.2.2 "alien" (by decide)⟩

set_option maxRecDepth 100000

/-- C1 counterexample: on the end-to-end scenario of the spec the second turn
does NOT return a full computed-advice response.  The weight-loss reply of the
first turn contains none of the mid-interview trigger phrases and
the age pattern requires a unit ("years old"/"yr"/"age"), so the second
message classifies as general_nutrition and `process_message` returns
the first conversational fallback filler (with no disclaimer), which
contains no target-calorie figure "2095". -/
theorem c1_counterexample :
    c1_turn2.1 = Except.ok (fallbackResponses.getD 0 "", false) ∧
    containsSub "2095" (fallbackResponses.getD 0 "") = false := by
  exact ⟨rfl, by decide⟩

/-- C1 amended: whatever index the `random.choice` takes, the second
turn of the scenario yields a conversational fallback response (not
computed advice), the message classifies as general_nutrition, and the
stored profile has goal/weight/height/gender/activity but still no age
(the age regex never matches "25" without a unit). -/
theorem c1_amended (ridx : Nat) :
    (process_message ridx c1_turn1.2 c1_msg2 "u1").1
      = Except.ok (fallbackResponses.getD (ridx % 5) "", false) ∧
    classify_query (lowerS c1_msg2) = QueryType.general_nutrition ∧
    (((process_message ridx c1_turn1.2 c1_msg2 "u1").2).profiles "u1").age = none ∧
    (((process_message ridx c1_turn1.2 c1_msg2 "u1").2).profiles "u1").goal
      = some "lose_weight" ∧
    (((process_message ridx c1_turn1.2 c1_msg2 "u1").2).profiles "u1").weight
      = some ((70 : ℕ) : ℚ) := by
  exact ⟨rfl, rfl, rfl, rfl, rfl⟩

/-- C2: evaluating `process_message` at the failing two-turn input.  The
first turn answers a calorie question with the "please share" interview
text; the second turn supplies everything except the goal, so the
mid-interview branch runs `_ask_for_specific_info` with an empty
`need_info` list and the call raises `IndexError` instead of returning. -/
theorem c2_indexerror_raised :
    validate_user_input c2_msg2 = true ∧
    c2_turn2.1 = Except.error PyExn.indexError := by
  exact ⟨rfl, rfl⟩

/-- C9 counterexample: on the same raising call (a valid message), the
history afterwards holds three entries ending in the user message — the
assistant response was never appended, refuting "each call on a valid
message appends exactly the user message and the assistant response". -/
theorem c9_counterexample :
    validate_user_input c2_msg2 = true ∧
    (c9_turn2.2.histories "u9").map ChatMsg.role = ["user", "assistant", "user"] ∧
    (c9_turn2.2.histories "u9").length = 3 := by
  exact ⟨rfl, rfl, rfl⟩

/-- C10: any message containing one of the six disallowed terms as a
substring (case-insensitively, also inside a longer word) makes
`process_message` return the fixed redirect with no disclaimer and leave
the whole chatbot state — profiles and histories — untouched. -/
theorem c10_disallowed_terms (ridx : Nat) (st : ChatState) (message uid : String)
    (hterm : ∃ t ∈ inappropriateTerms, containsSub t (lowerS message) = true) :
    process_message ridx st message uid = (Except.ok (redirectText, false), st) := by
  have hany : (inappropriateTerms.any (fun t => containsSub t (lowerS message))) = true := by
    obtain ⟨t, ht, hc⟩ := hterm
    exact List.any_eq_true.mpr ⟨t, ht, hc⟩
  have hv : validate_user_input message = false := by
    simp [validate_user_input, hany]
  unfold process_message
  rw [if_pos hv]

/-- Witness for C10: "treats" contains the banned term "treat" inside a
longer word; the message is redirected and the fresh state is unchanged. -/
theorem c10_witness :
    containsSub "treat" (lowerS "I love my treats") = true ∧
    process_message 0 initialState "I love my treats" "u"
      = (Except.ok (redirectText, false), initialState) :=
  ⟨by decide,
   c10_disallowed_terms 0 initialState "I love my treats" "u"
     ⟨"treat", by decide, by decide⟩⟩

/-- C9 amended: after every `process_message` call that returns without
raising, the history of every user stays within 20 entries (given it was
within 20 before), and a call on a valid message appends exactly the
user message and the assistant response before truncating.  (A call that
raises — see the counterexample — leaves the user message appended
without an assistant response.) -/
theorem c9_bounded_history (ridx : Nat) (st : ChatState) (message uid : String)
    (resp : String × Bool)
    (hok : (process_message ridx st message uid).1 = Except.ok resp)
    (hbound : ∀ u, (st.histories u).length ≤ 20) :
    (∀ u, (((process_message ridx st message uid).2).histories u).length ≤ 20) ∧
    (validate_user_input message = true →
      ((process_message ridx st message uid).2).histories uid
        = truncate20 (st.histories uid ++
            [{ role := "user", content := message },
             { role := "assistant", content := resp.1 }])) := by
  by_cases hv : validate_user_input message = false
  · unfold process_message
    rw [if_pos hv]
    refine ⟨fun u => hbound u, fun hvt => ?_⟩
    rw [hvt] at hv
    exact absurd hv (by simp)
  · unfold process_message at hok ⊢
    rw [if_neg hv] at hok ⊢
    unfold process_valid at hok ⊢
    dsimp only at hok ⊢
    rcases hg : generate_contextual_response ridx
        ((analyze_user_query (appendMsg st uid "user" message) message uid)).2 message
        ((analyze_user_query (appendMsg st uid "user" message) message uid)).1 uid
      with e | response
    · rw [hg] at hok
      simp at hok
    · rw [hg] at hok
      dsimp only at hok ⊢
      have hresp : response = resp.1 := by
        simp only [Except.ok.injEq] at hok
        rw [← hok]
      have happ_same : (appendMsg st uid "user" message).histories uid
          = st.histories uid ++ [{ role := "user", content := message }] := by
        simp [appendMsg]
      constructor
      · intro u
        by_cases hu : u = uid
        · subst hu
          rw [if_pos rfl]
          exact length_truncate20 _
        · rw [if_neg hu]
          have hother : (appendMsg st uid "user" message).histories u = st.histories u := by
            simp [appendMsg, hu]
          calc ((analyze_user_query (appendMsg st uid "user" message) message uid).2.histories u).length
              = ((appendMsg st uid "user" message).histories u).length := rfl
            _ = (st.histories u).length := by rw [hother]
            _ ≤ 20 := hbound u
      · intro _
        rw [if_pos rfl]
        have h1 : (analyze_user_query (appendMsg st uid "user" message) message uid).2.histories uid
            = st.histories uid ++ [{ role := "user", content := message }] := by
          rw [show (analyze_user_query (appendMsg st uid "user" message) message uid).2.histories uid
              = (appendMsg st uid "user" message).histories uid from rfl, happ_same]
        rw [h1, hresp, List.append_assoc]
        rfl

/-- Witness for C9 on a concrete returning call from a fresh state. -/
theorem c9_witness :
    (process_message 0 initialState "hello there" "u").1
      = Except.ok (fallbackResponses.getD 0 "", false) ∧
    (∀ u, (((process_message 0 initialState "hello there" "u").2).histories u).length ≤ 20) ∧
    ((process_message 0 initialState "hello there" "u").2).histories "u"
      = truncate20 ([] ++
          [{ role := "user", content := "hello there" },
           { role := "assistant", content := (fallbackResponses.getD 0 "", false).1 }]) := by
  have h1 : (process_message 0 initialState "hello there" "u").1
      = Except.ok (fallbackResponses.getD 0 "", false) := rfl
  have h2 : ∀ u, ((initialState.histories u)).length ≤ 20 := fun _ => by simp [initialState]
  have main := c9_bounded_history 0 initialState "hello there" "u"
      (fallbackResponses.getD 0 "", false) h1 h2
  exact ⟨h1, main.1, main.2 rfl⟩
